import Mathlib

/-!
Verification development for the Isaac-like renderer/controller
(`src/Project1/game_renderer.cpp`, `game_renderer.h`, `main.cpp`).

The C++ code reads a loosely typed JSON state document (nlohmann::json),
caches tilemap dimensions, composes a layered list of draw calls, and
publishes an input frame each tick.  We embed the JSON data model and the
renderer operations shallowly: JSON values are an inductive `JVal`,
numbers are exact rationals, C++ exceptions become `Except Unit`, and raylib
draw calls become constructors of `DrawCmd`.
-/

/-- Shallow model of an nlohmann::json value.  Numbers (int and float alike)
are modelled as exact rationals. -/
inductive JVal where
  | null : JVal
  | bool : Bool → JVal
  | num : ℚ → JVal
  | str : String → JVal
  | arr : List JVal → JVal
  | obj : List (String × JVal) → JVal

/-- Field lookup on an object; `none` on any non-object (mirrors
`json::find` / `contains` returning false on non-objects). -/
def JVal.find? : JVal → String → Option JVal
  | .obj fs, k => fs.lookup k
  | _, _ => none

/-- `json::contains`: true iff the value is an object holding the key. -/
def JVal.contains (j : JVal) (k : String) : Bool :=
  (j.find? k).isSome

/-- Truncation toward zero, as C++ `static_cast<int>` on a floating value. -/
def ratTrunc (q : ℚ) : ℤ :=
  if q < 0 then ⌈q⌉ else ⌊q⌋

/-- `get<std::string>()`: throws unless the value is a string. -/
def JVal.getStr : JVal → Except Unit String
  | .str s => .ok s
  | _ => .error ()

/-- `get<bool>()`: throws unless the value is a boolean. -/
def JVal.getBool : JVal → Except Unit Bool
  | .bool b => .ok b
  | _ => .error ()

/-- `get<float>()` / `get<double>()`: throws unless the value is a number
(nlohmann converts freely between numeric types, never from other types). -/
def JVal.getNum : JVal → Except Unit ℚ
  | .num q => .ok q
  | _ => .error ()

/-- `get<int>()`: numeric conversion with truncation toward zero. -/
def JVal.getInt (j : JVal) : Except Unit ℤ :=
  (j.getNum).map ratTrunc

/-- `json::value(key, default)` with a numeric target: throws on a
non-object receiver (type_error.306) and on a present key of non-numeric
type (type_error.302); yields the default only when the key is absent. -/
def JVal.valueNum (j : JVal) (k : String) (d : ℚ) : Except Unit ℚ :=
  match j with
  | .obj fs =>
    match fs.lookup k with
    | some v => v.getNum
    | none => .ok d
  | _ => .error ()

/-- `json::value(key, default)` with an `int` target. -/
def JVal.valueInt (j : JVal) (k : String) (d : ℤ) : Except Unit ℤ :=
  match j with
  | .obj fs =>
    match fs.lookup k with
    | some v => v.getInt
    | none => .ok d
  | _ => .error ()

/-- `json::value(key, default)` with a `std::string` target. -/
def JVal.valueStr (j : JVal) (k : String) (d : String) : Except Unit String :=
  match j with
  | .obj fs =>
    match fs.lookup k with
    | some v => v.getStr
    | none => .ok d
  | _ => .error ()

/-- `json::value(key, default)` with a `bool` target. -/
def JVal.valueBool (j : JVal) (k : String) (d : Bool) : Except Unit Bool :=
  match j with
  | .obj fs =>
    match fs.lookup k with
    | some v => v.getBool
    | none => .ok d
  | _ => .error ()

/-- Range-for over an nlohmann::json value: arrays iterate their elements,
objects their mapped values, null is empty, and any primitive yields itself
once. -/
def JVal.elements : JVal → List JVal
  | .arr xs => xs
  | .obj fs => fs.map (·.2)
  | .null => []
  | v => [v]

/-- An RGBA color (raylib `Color`). -/
structure Color where
  r : ℕ
  g : ℕ
  b : ℕ
  a : ℕ

/-- A raylib `Rectangle` with rational coordinates. -/
structure Rect where
  x : ℚ
  y : ℚ
  w : ℚ
  h : ℚ

/-- One emitted drawing call.  Text coordinates are `int` in raylib, so they
are integers here. -/
inductive DrawCmd where
  | rect : Rect → Color → DrawCmd
  | rectLines : Rect → ℚ → Color → DrawCmd
  | circle : ℚ → ℚ → ℚ → Color → DrawCmd
  | circleLines : ℚ → ℚ → ℚ → Color → DrawCmd
  | text : String → ℤ → ℤ → ℕ → Color → DrawCmd

/-- Horizontal letterbox offset:
`(GetScreenWidth() - room_width_ * tile_size_) * 0.5f`. -/
def offX (rw : ℤ) (ts : ℚ) (sw : ℤ) : ℚ :=
  ((sw : ℚ) - (rw : ℚ) * ts) * (1 / 2)

/-- Vertical letterbox offset:
`(GetScreenHeight() - room_height_ * tile_size_) * 0.5f`. -/
def offY (rh : ℤ) (ts : ℚ) (sh : ℤ) : ℚ :=
  ((sh : ℚ) - (rh : ℚ) * ts) * (1 / 2)

/-- `GameRenderer::WorldToScreen`: tile-centred entity coordinates. -/
def WorldToScreen (ts : ℚ) (rw rh sw sh : ℤ) (x y : ℚ) : ℚ × ℚ :=
  (offX rw ts sw + (x + 1 / 2) * ts, offY rh ts sh + (y + 1 / 2) * ts)

/-- The screen rectangle of the tile at grid position `(tx, ty)` inside
`DrawTilemap`. -/
def tileRect (ts : ℚ) (rw rh sw sh : ℤ) (tx ty : ℕ) : Rect :=
  ⟨offX rw ts sw + (tx : ℚ) * ts, offY rh ts sh + (ty : ℚ) * ts, ts, ts⟩

/-- `GameRenderer::TileFillColor`: closed lookup with a neutral default. -/
def TileFillColor (tile : String) : Color :=
  if tile = "floor" then ⟨60, 52, 65, 255⟩
  else if tile = "wall" then ⟨90, 92, 112, 255⟩
  else if tile = "pit" then ⟨20, 20, 32, 255⟩
  else if tile = "rock" then ⟨120, 120, 140, 255⟩
  else if tile = "spikes" then ⟨110, 40, 40, 255⟩
  else if tile = "door_up" then ⟨150, 120, 60, 255⟩
  else if tile = "door_down" then ⟨150, 120, 60, 255⟩
  else if tile = "door_left" then ⟨150, 120, 60, 255⟩
  else if tile = "door_right" then ⟨150, 120, 60, 255⟩
  else if tile = "special" then ⟨100, 50, 130, 255⟩
  else ⟨50, 48, 60, 255⟩

/-- `GameRenderer::TileOutlineColor`: closed lookup defaulting to the
fully transparent color `{0,0,0,0}`. -/
def TileOutlineColor (tile : String) : Color :=
  if tile = "wall" then ⟨15, 15, 25, 180⟩
  else if tile = "rock" then ⟨30, 30, 40, 200⟩
  else if tile = "spikes" then ⟨200, 40, 60, 255⟩
  else if tile = "door_up" then ⟨240, 190, 90, 255⟩
  else if tile = "door_down" then ⟨240, 190, 90, 255⟩
  else if tile = "door_left" then ⟨240, 190, 90, 255⟩
  else if tile = "door_right" then ⟨240, 190, 90, 255⟩
  else if tile = "special" then ⟨200, 120, 255, 255⟩
  else ⟨0, 0, 0, 0⟩

/-- `GameRenderer::PickupColor`. -/
def PickupColor (pickup : String) : Color :=
  if pickup = "heart" then ⟨220, 60, 80, 255⟩
  else if pickup = "coin" then ⟨230, 200, 80, 255⟩
  else if pickup = "key" then ⟨180, 180, 200, 255⟩
  else if pickup = "bomb" then ⟨90, 90, 90, 255⟩
  else ⟨220, 220, 220, 255⟩

/-- Draw calls emitted for one tile: the fill rectangle, then the outline
only when the resolved outline alpha is positive. -/
def tileCellCmds (ts : ℚ) (rw rh sw sh : ℤ) (tx ty : ℕ) (tile : String) :
    List DrawCmd :=
  DrawCmd.rect (tileRect ts rw rh sw sh tx ty) (TileFillColor tile) ::
    (if 0 < (TileOutlineColor tile).a then
      [DrawCmd.rectLines (tileRect ts rw rh sw sh tx ty) 1 (TileOutlineColor tile)]
    else [])

/-- The `tiles.size()` / `tiles[y]` indexing loop head: an array yields its
rows; null and the empty object have size 0, so the loop body never runs;
any other value has positive size and the first `operator[](size_t)` access
throws (type_error.305). -/
def tilesRows : JVal → Except Unit (List JVal)
  | .arr xs => .ok xs
  | .null => .ok []
  | .obj [] => .ok []
  | _ => .error ()

/-- Inner column loop of `DrawTilemap`: each cell is read with
`get<std::string>()`. -/
def cellCmds (ts : ℚ) (rw rh sw sh : ℤ) (ty : ℕ) :
    ℕ → List JVal → Except Unit (List DrawCmd)
  | _, [] => .ok []
  | tx, c :: rest => do
    let tile ← c.getStr
    let others ← cellCmds ts rw rh sw sh ty (tx + 1) rest
    pure (tileCellCmds ts rw rh sw sh tx ty tile ++ others)

/-- Outer row loop of `DrawTilemap`. -/
def rowsCmds (ts : ℚ) (rw rh sw sh : ℤ) :
    ℕ → List JVal → Except Unit (List DrawCmd)
  | _, [] => .ok []
  | ty, r :: rest => do
    let cells ← tilesRows r
    let cs ← cellCmds ts rw rh sw sh ty 0 cells
    let others ← rowsCmds ts rw rh sw sh (ty + 1) rest
    pure (cs ++ others)

/-- `GameRenderer::DrawTilemap`, as a function of the snapshot's `tilemap`
section.  No section, or a section without `tiles`, contributes nothing. -/
def DrawTilemap (sec : Option JVal) (ts : ℚ) (rw rh sw sh : ℤ) :
    Except Unit (List DrawCmd) :=
  match sec with
  | none => .ok []
  | some tilemap =>
    match tilemap.find? "tiles" with
    | none => .ok []
    | some tiles => do
      let rows ← tilesRows tiles
      rowsCmds ts rw rh sw sh 0 rows

/-- Per-element command lists concatenated in order, aborting on the first
throwing element (the C++ loop body). -/
def exceptMap (f : JVal → Except Unit (List DrawCmd)) :
    List JVal → Except Unit (List DrawCmd)
  | [] => .ok []
  | x :: xs => do
    let c ← f x
    let rest ← exceptMap f xs
    pure (c ++ rest)

/-- Draw calls for one pickup record (`DrawPickups` loop body). -/
def pickupCmds (ts : ℚ) (rw rh sw sh : ℤ) (pickup : JVal) :
    Except Unit (List DrawCmd) := do
  let x ← pickup.valueNum "x" 0
  let y ← pickup.valueNum "y" 0
  let kind ← pickup.valueStr "kind" "coin"
  let pos := WorldToScreen ts rw rh sw sh x y
  pure [DrawCmd.circle pos.1 pos.2 (ts * (22 / 100)) (PickupColor kind)]

/-- `GameRenderer::DrawPickups` as a function of the `pickups` section. -/
def DrawPickups (sec : Option JVal) (ts : ℚ) (rw rh sw sh : ℤ) :
    Except Unit (List DrawCmd) :=
  match sec with
  | none => .ok []
  | some pickups => exceptMap (pickupCmds ts rw rh sw sh) pickups.elements

/-- Foreground width of a non-player health bar:
`(tile_size * 0.6) * hp / max(1, max_hp)`, not clamped. -/
def healthBarFgWidth (ts : ℚ) (hp mhp : ℤ) : ℚ :=
  ts * (3 / 5) * ((hp : ℚ) / ((max 1 mhp : ℤ) : ℚ))

/-- Draw calls for one actor record (`DrawActors` loop body): the player is
a circle plus outline; any other type additionally gets the two-layer
health bar. -/
def ActorCmds (ts : ℚ) (rw rh sw sh : ℤ) (actor : JVal) :
    Except Unit (List DrawCmd) := do
  let type ← actor.valueStr "type" "enemy"
  let variant ← actor.valueStr "variant" "default"
  let x ← actor.valueNum "x" 0
  let y ← actor.valueNum "y" 0
  let pos := WorldToScreen ts rw rh sw sh x y
  if type = "player" then
    let inv ← actor.valueBool "invulnerable" false
    let fill : Color := if inv then ⟨255, 255, 180, 255⟩ else ⟨120, 200, 255, 255⟩
    pure [DrawCmd.circle pos.1 pos.2 (ts * (35 / 100)) fill,
      DrawCmd.circleLines pos.1 pos.2 (ts * (35 / 100)) ⟨30, 30, 60, 255⟩]
  else
    let fill : Color :=
      if variant = "spitter" then ⟨220, 90, 90, 255⟩ else ⟨200, 120, 120, 255⟩
    let hp ← actor.valueInt "hp" 0
    let mhp ← actor.valueInt "max_hp" 1
    let bw := ts * (3 / 5)
    let bg : Rect := ⟨pos.1 - bw / 2, pos.2 - ts * (1 / 2), bw, 4⟩
    pure [DrawCmd.circle pos.1 pos.2 (ts * (32 / 100)) fill,
      DrawCmd.circleLines pos.1 pos.2 (ts * (32 / 100)) ⟨60, 20, 20, 255⟩,
      DrawCmd.rect bg ⟨30, 10, 10, 180⟩,
      DrawCmd.rect ⟨bg.x, bg.y, healthBarFgWidth ts hp mhp, 4⟩ ⟨220, 40, 40, 200⟩]

/-- `GameRenderer::DrawActors` as a function of the `actors` section. -/
def DrawActors (sec : Option JVal) (ts : ℚ) (rw rh sw sh : ℤ) :
    Except Unit (List DrawCmd) :=
  match sec with
  | none => .ok []
  | some actors => exceptMap (ActorCmds ts rw rh sw sh) actors.elements

/-- Draw calls for one projectile record (`DrawProjectiles` loop body). -/
def projectileCmds (ts : ℚ) (rw rh sw sh : ℤ) (projectile : JVal) :
    Except Unit (List DrawCmd) := do
  let x ← projectile.valueNum "x" 0
  let y ← projectile.valueNum "y" 0
  let owner ← projectile.valueStr "owner" "player"
  let pos := WorldToScreen ts rw rh sw sh x y
  let color : Color :=
    if owner = "player" then ⟨150, 220, 255, 255⟩ else ⟨255, 150, 150, 255⟩
  pure [DrawCmd.circle pos.1 pos.2 (ts * (18 / 100)) color]

/-- `GameRenderer::DrawProjectiles` as a function of the `projectiles`
section. -/
def DrawProjectiles (sec : Option JVal) (ts : ℚ) (rw rh sw sh : ℤ) :
    Except Unit (List DrawCmd) :=
  match sec with
  | none => .ok []
  | some projectiles => exceptMap (projectileCmds ts rw rh sw sh) projectiles.elements

/-- Draw calls for one effect record (`DrawEffects` loop body). -/
def effectCmds (ts : ℚ) (rw rh sw sh : ℤ) (effect : JVal) :
    Except Unit (List DrawCmd) := do
  let x ← effect.valueNum "x" 0
  let y ← effect.valueNum "y" 0
  let kind ← effect.valueStr "kind" "impact"
  let pos := WorldToScreen ts rw rh sw sh x y
  let color : Color :=
    if kind = "blood_splatter" then ⟨200, 40, 40, 180⟩ else ⟨220, 220, 255, 180⟩
  pure [DrawCmd.circleLines pos.1 pos.2 (ts * (28 / 100)) color]

/-- `GameRenderer::DrawEffects` as a function of the `effects` section. -/
def DrawEffects (sec : Option JVal) (ts : ℚ) (rw rh sw sh : ℤ) :
    Except Unit (List DrawCmd) :=
  match sec with
  | none => .ok []
  | some effects => exceptMap (effectCmds ts rw rh sw sh) effects.elements

/-- The HUD message color used by `DrawMessages`. -/
def msgColor : Color := ⟨230, 230, 230, 255⟩

/-- The message loop of `DrawMessages`: `y` is decremented by the 22px line
height before each `DrawText`, and the sequence passed in is already the
reverse-chronological walk (rbegin..rend). -/
def messagesLoop : ℤ → List JVal → Except Unit (List DrawCmd)
  | _, [] => .ok []
  | y, m :: rest => do
    let s ← m.getStr
    let others ← messagesLoop (y - 22) rest
    pure (DrawCmd.text s 20 (y - 22) 18 msgColor :: others)

/-- `GameRenderer::DrawMessages` as a function of the `ui` section; walks
`ui.messages` with reverse iterators starting from `GetScreenHeight() - 20`. -/
def DrawMessages (ui : Option JVal) (sh : ℤ) : Except Unit (List DrawCmd) :=
  match ui with
  | none => .ok []
  | some u =>
    match u.find? "messages" with
    | none => .ok []
    | some msgs => messagesLoop (sh - 20) msgs.elements.reverse

/-- `GameRenderer::DrawBossHealth` as a function of the `ui` section. -/
def DrawBossHealth (ui : Option JVal) (sw sh : ℤ) : Except Unit (List DrawCmd) :=
  match ui with
  | none => .ok []
  | some u =>
    match u.find? "boss_health" with
    | none => .ok []
    | some .null => .ok []
    | some boss => do
      let hp ← boss.valueInt "hp" 0
      let mhp0 ← boss.valueInt "max_hp" 1
      let mhp := max 1 mhp0
      let name ← boss.valueStr "name" "Boss"
      let w := (sw : ℚ) * (2 / 5)
      let x := ((sw : ℚ) - w) * (1 / 2)
      let y := (sh : ℚ) - 60
      let bg : Rect := ⟨x, y, w, 18⟩
      pure [DrawCmd.rect bg ⟨40, 10, 10, 200⟩,
        DrawCmd.rect ⟨x, y, w * ((hp : ℚ) / (mhp : ℚ)), 18⟩ ⟨200, 40, 40, 255⟩,
        DrawCmd.text name (ratTrunc x) (ratTrunc (y - 22)) 20 ⟨240, 240, 240, 255⟩]

/-- One heart square of the HUD hearts row. -/
def heartCmds (hp : ℤ) (i : ℕ) : List DrawCmd :=
  let r : Rect := ⟨20 + (i : ℚ) * 26, 20, 20, 20⟩
  let fill : Color := if (i : ℤ) < hp then ⟨220, 30, 60, 255⟩ else ⟨80, 40, 40, 255⟩
  [DrawCmd.rect r fill, DrawCmd.rectLines r (3 / 2) ⟨30, 10, 10, 255⟩]

/-- The hearts/counters tail of `GameRenderer::DrawHud`, reading `meta`. -/
def metaCmds (meta : Option JVal) : Except Unit (List DrawCmd) :=
  match meta with
  | none => .ok []
  | some m => do
    let hp ← m.valueInt "player_hp" 0
    let mhp ← m.valueInt "player_max_hp" (max hp 1)
    let coins ← m.valueInt "coins" 0
    let keys ← m.valueInt "keys" 0
    let bombs ← m.valueInt "bombs" 0
    pure (((List.range mhp.toNat).map (heartCmds hp)).flatten ++
      [DrawCmd.text
        ("Coins: " ++ toString coins ++ "  Keys: " ++ toString keys ++
          "  Bombs: " ++ toString bombs) 20 50 20 ⟨235, 235, 235, 255⟩])

/-- `GameRenderer::DrawHud`: messages, then the boss bar, then (only when a
`meta` section exists) hearts and counters. -/
def DrawHud (ui meta : Option JVal) (sw sh : ℤ) : Except Unit (List DrawCmd) := do
  let ms ← DrawMessages ui sh
  let boss ← DrawBossHealth ui sw sh
  let rest ← metaCmds meta
  pure (ms ++ boss ++ rest)

/-- `GameRenderer::RenderFrame`: the six scene layers in their fixed call
order, each reading only its own top-level section of the snapshot. -/
def RenderFrame (doc : JVal) (ts : ℚ) (rw rh sw sh : ℤ) :
    Except Unit (List DrawCmd) := do
  let t ← DrawTilemap (doc.find? "tilemap") ts rw rh sw sh
  let p ← DrawPickups (doc.find? "pickups") ts rw rh sw sh
  let a ← DrawActors (doc.find? "actors") ts rw rh sw sh
  let pr ← DrawProjectiles (doc.find? "projectiles") ts rw rh sw sh
  let e ← DrawEffects (doc.find? "effects") ts rw rh sw sh
  let h ← DrawHud (doc.find? "ui") (doc.find? "meta") sw sh
  pure (t ++ p ++ a ++ pr ++ e ++ h)

/-- The keyboard sample taken by one `HandleInput` call, plus the platform
close flag consulted by `ShouldClose`. -/
structure Keys where
  w : Bool
  s : Bool
  a : Bool
  d : Bool
  up : Bool
  down : Bool
  left : Bool
  right : Bool
  space : Bool
  e : Bool
  p : Bool
  escape : Bool

/-- The input frame captured each tick
(`{move, attack, bomb, use_item, pause, quit}`). -/
structure InputFrame where
  moveX : ℚ
  moveY : ℚ
  attackX : ℚ
  attackY : ℚ
  bomb : Bool
  use_item : Bool
  pause : Bool
  quit : Bool

/-- The frame `HandleInput` composes from opposing key pairs. -/
def handleInputFrame (k : Keys) : InputFrame :=
  { moveX := (if k.a then -1 else 0) + (if k.d then 1 else 0)
    moveY := (if k.w then -1 else 0) + (if k.s then 1 else 0)
    attackX := (if k.left then -1 else 0) + (if k.right then 1 else 0)
    attackY := (if k.up then -1 else 0) + (if k.down then 1 else 0)
    bomb := k.space
    use_item := k.e
    pause := k.p
    quit := k.escape }

/-- The JSON document `HandleInput` builds and hands to `WriteInput`. -/
def frameToJson (f : InputFrame) : JVal :=
  .obj [("move", .obj [("x", .num f.moveX), ("y", .num f.moveY)]),
    ("attack", .obj [("x", .num f.attackX), ("y", .num f.attackY)]),
    ("bomb", .bool f.bomb),
    ("use_item", .bool f.use_item),
    ("pause", .bool f.pause),
    ("quit", .bool f.quit)]

/-- An independent reader of the published `input.json` document, following
the interface shape `{move:{x,y}, attack:{x,y}, bomb, use_item, pause,
quit}`. -/
def parseInputFrame (j : JVal) : Except Unit InputFrame := do
  let move := (j.find? "move").getD .null
  let attack := (j.find? "attack").getD .null
  let mx ← ((move.find? "x").getD .null).getNum
  let my ← ((move.find? "y").getD .null).getNum
  let ax ← ((attack.find? "x").getD .null).getNum
  let ay ← ((attack.find? "y").getD .null).getNum
  let bomb ← ((j.find? "bomb").getD .null).getBool
  let ui ← ((j.find? "use_item").getD .null).getBool
  let pa ← ((j.find? "pause").getD .null).getBool
  let q ← ((j.find? "quit").getD .null).getBool
  pure ⟨mx, my, ax, ay, bomb, ui, pa, q⟩

/-- The distinguished terminal payload written by
`GameRenderer::SignalQuit`. -/
def quitPayload : JVal :=
  .obj [("move", .obj [("x", .num 0), ("y", .num 0)]),
    ("attack", .obj [("x", .num 0), ("y", .num 0)]),
    ("bomb", .bool false),
    ("use_item", .bool false),
    ("pause", .bool false),
    ("quit", .bool true)]

/-- What one iteration of the main loop observes: the keyboard sample and
whether `WindowShouldClose()` reports a platform close event. -/
structure TickInput where
  keys : Keys
  windowShouldClose : Bool

/-- The sequence of `input.json` documents written by `main` over a
schedule of tick observations, starting with `quit_requested_ = qr`.
Each tick `HandleInput` publishes its frame (and latches the ESC quit
request); then `ShouldClose` is consulted and on `true` the loop breaks and
`SignalQuit` publishes the terminal payload.  `none` means the schedule ran
out before a close was observed (the real loop would keep running). -/
def mainWrites (qr : Bool) : List TickInput → Option (List JVal)
  | [] => none
  | t :: rest =>
    let fj := frameToJson (handleInputFrame t.keys)
    let qr' := qr || t.keys.escape
    if t.windowShouldClose || qr' then some [fj, quitPayload]
    else (mainWrites qr' rest).map (fj :: ·)

/-- The tile kinds carried by the fill table (the outline table's keys are a
subset of these). -/
def knownTileKinds : List String :=
  ["floor", "wall", "pit", "rock", "spikes",
   "door_up", "door_down", "door_left", "door_right", "special"]

/-- A keyboard sample with no key active. -/
def allKeysUp : Keys :=
  ⟨false, false, false, false, false, false, false, false, false, false, false, false⟩

/-- Bind on a successful `Except` computation just applies the
continuation. -/
theorem except_bind_ok {α β : Type} (a : α) (f : α → Except Unit β) :
    (Except.ok a >>= f : Except Unit β) = f a := rfl

/-- `contains` is the `isSome` of `find?`. -/
theorem find_eq_none_of_contains_false {j : JVal} {k : String}
    (h : j.contains k = false) : j.find? k = none := by
  unfold JVal.contains at h
  cases hf : j.find? k with
  | none => rfl
  | some v => rw [hf] at h; simp at h

/-- Truncation toward zero is the identity on integers. -/
theorem ratTrunc_intCast (n : ℤ) : ratTrunc ((n : ℤ) : ℚ) = n := by
  unfold ratTrunc
  split <;> simp

/-- Claim C3 — confirmed.  The per-axis letterbox offset equals
`(viewport - room_pixels) / 2`; `WorldToScreen` maps `(x, y)` to
`offset + (coord + 0.5) * tile_size` per axis; the tile rectangle of grid
cell `(tx, ty)` sits at `offset + coord * tile_size` with side
`tile_size` (witnessed on an actual one-cell `DrawTilemap` run); and for
`width=10, height=8, tile_size=32` in a `1280x720` viewport the offsets are
480 and 232. -/
theorem WorldToScreen_centers_room (ts x y : ℚ) (rw rh sw sh : ℤ) (tx ty : ℕ) :
    offX rw ts sw = ((sw : ℚ) - (rw : ℚ) * ts) / 2 ∧
    offY rh ts sh = ((sh : ℚ) - (rh : ℚ) * ts) / 2 ∧
    WorldToScreen ts rw rh sw sh x y =
      (offX rw ts sw + (x + 1 / 2) * ts, offY rh ts sh + (y + 1 / 2) * ts) ∧
    tileRect ts rw rh sw sh tx ty =
      ⟨offX rw ts sw + (tx : ℚ) * ts, offY rh ts sh + (ty : ℚ) * ts, ts, ts⟩ ∧
    DrawTilemap (some (JVal.obj [("tiles", JVal.arr [JVal.arr [JVal.str "floor"]])]))
        ts rw rh sw sh =
      .ok [DrawCmd.rect (tileRect ts rw rh sw sh 0 0) (TileFillColor "floor")] ∧
    offX 10 32 1280 = 480 ∧
    offY 8 32 720 = 232 := by
  refine ⟨by unfold offX; ring, by unfold offY; ring, rfl, rfl, rfl, ?_, ?_⟩
  · norm_num [offX]
  · norm_num [offY]

/-- Claim C8 — confirmed.  Tile style resolution is total (both resolvers
are plain functions with a final default arm): any kind outside the known
table resolves to the neutral default fill `{50,48,60,255}` and the fully
transparent outline `{0,0,0,0}`, whose zero alpha suppresses the outline
call, so such a tile emits exactly its fill rectangle. -/
theorem tileStyle_total_fallback (kind : String) (h : kind ∉ knownTileKinds)
    (ts : ℚ) (rw rh sw sh : ℤ) (tx ty : ℕ) :
    TileFillColor kind = ⟨50, 48, 60, 255⟩ ∧
    TileOutlineColor kind = ⟨0, 0, 0, 0⟩ ∧
    tileCellCmds ts rw rh sw sh tx ty kind =
      [DrawCmd.rect (tileRect ts rw rh sw sh tx ty) ⟨50, 48, 60, 255⟩] := by
  simp only [knownTileKinds, List.mem_cons, List.not_mem_nil, or_false,
    not_or] at h
  obtain ⟨h1, h2, h3, h4, h5, h6, h7, h8, h9, h10⟩ := h
  have hf : TileFillColor kind = ⟨50, 48, 60, 255⟩ := by
    simp [TileFillColor, h1, h2, h3, h4, h5, h6, h7, h8, h9, h10]
  have ho : TileOutlineColor kind = ⟨0, 0, 0, 0⟩ := by
    simp [TileOutlineColor, h2, h4, h5, h6, h7, h8, h9, h10]
  refine ⟨hf, ho, ?_⟩
  simp [tileCellCmds, hf, ho]

/-- Claim C8 — witness at the unknown kind `"lava"`. -/
theorem tileStyle_total_fallback_witness :
    TileFillColor "lava" = ⟨50, 48, 60, 255⟩ ∧
    TileOutlineColor "lava" = ⟨0, 0, 0, 0⟩ ∧
    tileCellCmds 32 10 8 1280 720 0 0 "lava" =
      [DrawCmd.rect (tileRect 32 10 8 1280 720 0 0) ⟨50, 48, 60, 255⟩] :=
  tileStyle_total_fallback "lava" (by decide) 32 10 8 1280 720 0 0

/-- Claim C4 — confirmed.  `RenderFrame` emits the six layers in the fixed
order tilemap, pickups, actors, projectiles, effects, HUD; each layer reads
only its own top-level section, so the result is invariant under any
reordering of the document's keys (same `find?`); and every absent section
contributes zero draw commands without error (for the HUD layer: absent
`ui` and `meta`). -/
theorem RenderFrame_layer_order (doc : JVal) (ts : ℚ) (rw rh sw sh : ℤ) :
    (∀ t p a pr e hd : List DrawCmd,
      DrawTilemap (doc.find? "tilemap") ts rw rh sw sh = .ok t →
      DrawPickups (doc.find? "pickups") ts rw rh sw sh = .ok p →
      DrawActors (doc.find? "actors") ts rw rh sw sh = .ok a →
      DrawProjectiles (doc.find? "projectiles") ts rw rh sw sh = .ok pr →
      DrawEffects (doc.find? "effects") ts rw rh sw sh = .ok e →
      DrawHud (doc.find? "ui") (doc.find? "meta") sw sh = .ok hd →
      RenderFrame doc ts rw rh sw sh = .ok (t ++ p ++ a ++ pr ++ e ++ hd)) ∧
    (doc.contains "tilemap" = false →
      DrawTilemap (doc.find? "tilemap") ts rw rh sw sh = .ok []) ∧
    (doc.contains "pickups" = false →
      DrawPickups (doc.find? "pickups") ts rw rh sw sh = .ok []) ∧
    (doc.contains "actors" = false →
      DrawActors (doc.find? "actors") ts rw rh sw sh = .ok []) ∧
    (doc.contains "projectiles" = false →
      DrawProjectiles (doc.find? "projectiles") ts rw rh sw sh = .ok []) ∧
    (doc.contains "effects" = false →
      DrawEffects (doc.find? "effects") ts rw rh sw sh = .ok []) ∧
    (doc.contains "ui" = false → doc.contains "meta" = false →
      DrawHud (doc.find? "ui") (doc.find? "meta") sw sh = .ok []) ∧
    (∀ doc' : JVal, (∀ k : String, doc.find? k = doc'.find? k) →
      RenderFrame doc' ts rw rh sw sh = RenderFrame doc ts rw rh sw sh) := by
  refine ⟨?_, ?_, ?_, ?_, ?_, ?_, ?_, ?_⟩
  · intro t p a pr e hd h1 h2 h3 h4 h5 h6
    unfold RenderFrame
    simp only [h1, h2, h3, h4, h5, h6, except_bind_ok]
    rfl
  · intro h; rw [find_eq_none_of_contains_false h]; rfl
  · intro h; rw [find_eq_none_of_contains_false h]; rfl
  · intro h; rw [find_eq_none_of_contains_false h]; rfl
  · intro h; rw [find_eq_none_of_contains_false h]; rfl
  · intro h; rw [find_eq_none_of_contains_false h]; rfl
  · intro hu hm
    rw [find_eq_none_of_contains_false hu, find_eq_none_of_contains_false hm]
    rfl
  · intro doc' hk
    unfold RenderFrame
    simp only [hk]

/-- Claim C4 — witness: the empty document has every section absent and
composes to zero draw commands without error. -/
theorem RenderFrame_layer_order_witness :
    RenderFrame (JVal.obj []) 32 10 8 1280 720 = .ok [] := by
  have H := RenderFrame_layer_order (JVal.obj []) 32 10 8 1280 720
  have := H.1 [] [] [] [] [] []
    (H.2.1 rfl) (H.2.2.1 rfl) (H.2.2.2.1 rfl) (H.2.2.2.2.1 rfl)
    (H.2.2.2.2.2.1 rfl) (H.2.2.2.2.2.2.1 rfl rfl)
  simpa using this

/-- Claim C5 — confirmed.  For a non-player actor the foreground bar width
is `bar_width * hp / max(1, max_hp)` where `bar_width = tile_size * 0.6`;
at `tile_size = 100/3` (bar width 20), `hp = 3`, `max_hp = 10` the
foreground width is exactly 6; and the fraction is not clamped: whenever
`hp > max(1, max_hp)` the foreground is strictly wider than the background
bar. -/
theorem healthbar_width_unclamped (ts x y : ℚ) (hp mhp : ℤ) (rw rh sw sh : ℤ) :
    ActorCmds ts rw rh sw sh
      (JVal.obj [("type", JVal.str "enemy"), ("x", JVal.num x), ("y", JVal.num y),
        ("hp", JVal.num (hp : ℚ)), ("max_hp", JVal.num (mhp : ℚ))]) =
    .ok [DrawCmd.circle (WorldToScreen ts rw rh sw sh x y).1
        (WorldToScreen ts rw rh sw sh x y).2 (ts * (32 / 100)) ⟨200, 120, 120, 255⟩,
      DrawCmd.circleLines (WorldToScreen ts rw rh sw sh x y).1
        (WorldToScreen ts rw rh sw sh x y).2 (ts * (32 / 100)) ⟨60, 20, 20, 255⟩,
      DrawCmd.rect ⟨(WorldToScreen ts rw rh sw sh x y).1 - ts * (3 / 5) / 2,
        (WorldToScreen ts rw rh sw sh x y).2 - ts * (1 / 2), ts * (3 / 5), 4⟩
        ⟨30, 10, 10, 180⟩,
      DrawCmd.rect ⟨(WorldToScreen ts rw rh sw sh x y).1 - ts * (3 / 5) / 2,
        (WorldToScreen ts rw rh sw sh x y).2 - ts * (1 / 2),
        healthBarFgWidth ts hp mhp, 4⟩ ⟨220, 40, 40, 200⟩] ∧
    healthBarFgWidth (100 / 3) 3 10 = 6 ∧
    (∀ (bts : ℚ) (bhp bmhp : ℤ), 0 < bts → (max 1 bmhp : ℤ) < bhp →
      bts * (3 / 5) < healthBarFgWidth bts bhp bmhp) := by
  refine ⟨?_, ?_, ?_⟩
  · have base : ActorCmds ts rw rh sw sh
        (JVal.obj [("type", JVal.str "enemy"), ("x", JVal.num x), ("y", JVal.num y),
          ("hp", JVal.num (hp : ℚ)), ("max_hp", JVal.num (mhp : ℚ))]) =
        .ok [DrawCmd.circle (WorldToScreen ts rw rh sw sh x y).1
            (WorldToScreen ts rw rh sw sh x y).2 (ts * (32 / 100)) ⟨200, 120, 120, 255⟩,
          DrawCmd.circleLines (WorldToScreen ts rw rh sw sh x y).1
            (WorldToScreen ts rw rh sw sh x y).2 (ts * (32 / 100)) ⟨60, 20, 20, 255⟩,
          DrawCmd.rect ⟨(WorldToScreen ts rw rh sw sh x y).1 - ts * (3 / 5) / 2,
            (WorldToScreen ts rw rh sw sh x y).2 - ts * (1 / 2), ts * (3 / 5), 4⟩
            ⟨30, 10, 10, 180⟩,
          DrawCmd.rect ⟨(WorldToScreen ts rw rh sw sh x y).1 - ts * (3 / 5) / 2,
            (WorldToScreen ts rw rh sw sh x y).2 - ts * (1 / 2),
            healthBarFgWidth ts (ratTrunc ((hp : ℤ) : ℚ)) (ratTrunc ((mhp : ℤ) : ℚ)), 4⟩
            ⟨220, 40, 40, 200⟩] := rfl
    rw [base, ratTrunc_intCast hp, ratTrunc_intCast mhp]
  · have hmax : (max 1 10 : ℤ) = 10 := by decide
    unfold healthBarFgWidth
    rw [hmax]
    norm_num
  · intro bts bhp bmhp hts hlt
    unfold healthBarFgWidth
    have hm1 : (1 : ℤ) ≤ max 1 bmhp := le_max_left _ _
    have hmpos : (0 : ℚ) < ((max 1 bmhp : ℤ) : ℚ) := by
      exact_mod_cast lt_of_lt_of_le Int.zero_lt_one hm1
    have hdiv : (1 : ℚ) < (bhp : ℚ) / ((max 1 bmhp : ℤ) : ℚ) :=
      (one_lt_div hmpos).mpr (by exact_mod_cast hlt)
    have hbw : (0 : ℚ) < bts * (3 / 5) := by positivity
    exact (lt_mul_iff_one_lt_right hbw).mpr hdiv

/-- Claim C5 — witness: the concrete spec instance (bar width 20, `hp=3`,
`max_hp=10` gives foreground width 6) and an over-full instance (`hp=30`,
`max_hp=10` gives foreground width 60, wider than the 20-wide
background). -/
theorem healthbar_width_unclamped_witness :
    healthBarFgWidth (100 / 3) 3 10 = 6 ∧
    (100 / 3 : ℚ) * (3 / 5) < healthBarFgWidth (100 / 3) 30 10 := by
  have H := healthbar_width_unclamped (100 / 3) 0 0 3 10 10 8 1280 720
  exact ⟨H.2.1, H.2.2 (100 / 3) 30 10 (by norm_num) (by decide)⟩

/-- The message loop draws the k-th walked message 22 pixels above the
previous one, starting one line height below the cursor. -/
theorem messagesLoop_spec (ms : List String) :
    ∀ y0 : ℤ, messagesLoop y0 (ms.map JVal.str) =
      .ok (ms.mapIdx fun i s =>
        DrawCmd.text s 20 (y0 - 22 * ((i : ℤ) + 1)) 18 msgColor) := by
  induction ms with
  | nil => intro y0; rfl
  | cons s rest ih =>
    intro y0
    have hfun : (fun (i : ℕ) (t : String) =>
        DrawCmd.text t 20 (y0 - 22 - 22 * ((i : ℤ) + 1)) 18 msgColor)
        = (fun (i : ℕ) (t : String) =>
          DrawCmd.text t 20 (y0 - 22 * (((i + 1 : ℕ) : ℤ) + 1)) 18 msgColor) := by
      funext i t
      congr 1
      push_cast
      ring
    calc messagesLoop y0 ((s :: rest).map JVal.str)
        = (messagesLoop (y0 - 22) (rest.map JVal.str)) >>= fun others =>
            pure (DrawCmd.text s 20 (y0 - 22) 18 msgColor :: others) := rfl
      _ = .ok (DrawCmd.text s 20 (y0 - 22) 18 msgColor ::
            rest.mapIdx fun i t =>
              DrawCmd.text t 20 (y0 - 22 - 22 * ((i : ℤ) + 1)) 18 msgColor) := by
          rw [ih (y0 - 22)]; rfl
      _ = .ok ((s :: rest).mapIdx fun i t =>
            DrawCmd.text t 20 (y0 - 22 * ((i : ℤ) + 1)) 18 msgColor) := by
          rw [List.mapIdx_cons, hfun]
          norm_num

/-- Claim C6 — confirmed.  `DrawMessages` walks `ui.messages` in reverse
chronological order: the list is reversed, the k-th drawn message (k = 0
the newest) sits at `screen_height - 20 - 22 * (k + 1)`, so the newest is
nearest the bottom edge and each older message is exactly 22 pixels higher;
for messages `["A", "B", "C"]` on a 720-high screen, `"C"` is drawn at
y = 678, `"B"` at 656 and `"A"` at 634. -/
theorem messages_bottom_up (ms : List String) (sh : ℤ) :
    DrawMessages (some (JVal.obj [("messages", JVal.arr (ms.map JVal.str))])) sh
      = .ok (ms.reverse.mapIdx fun i s =>
        DrawCmd.text s 20 (sh - 20 - 22 * ((i : ℤ) + 1)) 18 msgColor) ∧
    DrawMessages (some (JVal.obj [("messages",
        JVal.arr [JVal.str "A", JVal.str "B", JVal.str "C"])])) 720
      = .ok [DrawCmd.text "C" 20 678 18 msgColor,
          DrawCmd.text "B" 20 656 18 msgColor,
          DrawCmd.text "A" 20 634 18 msgColor] := by
  constructor
  · have hrev : (ms.map JVal.str).reverse = ms.reverse.map JVal.str :=
      (List.map_reverse JVal.str ms).symm
    calc DrawMessages (some (JVal.obj [("messages", JVal.arr (ms.map JVal.str))])) sh
        = messagesLoop (sh - 20) (ms.map JVal.str).reverse := rfl
      _ = messagesLoop (sh - 20) (ms.reverse.map JVal.str) := by rw [hrev]
      _ = _ := messagesLoop_spec ms.reverse (sh - 20)
  · rfl

/-- Serialize-then-parse is the identity on any input frame. -/
theorem parse_frameToJson (f : InputFrame) :
    parseInputFrame (frameToJson f) = .ok f := by
  cases f
  rfl

/-- Each captured axis, composed from an opposing key pair, lies in
`{-1, 0, 1}`. -/
theorem axis_mem (b c : Bool) :
    ((if b then (-1 : ℚ) else 0) + (if c then 1 else 0) = -1 ∨
     (if b then (-1 : ℚ) else 0) + (if c then 1 else 0) = 0 ∨
     (if b then (-1 : ℚ) else 0) + (if c then 1 else 0) = 1) := by
  cases b <;> cases c <;> norm_num

/-- Claim C9 — confirmed.  For every keyboard sample, the frame captured by
`HandleInput` (whose axes necessarily lie in `{-1, 0, 1}`) publishes to a
document which an independent reader of the `input.json` shape parses back
to exactly the same frame, booleans and numbers alike. -/
theorem input_roundtrip (k : Keys) :
    parseInputFrame (frameToJson (handleInputFrame k)) =
      .ok (handleInputFrame k) ∧
    ((handleInputFrame k).moveX = -1 ∨ (handleInputFrame k).moveX = 0 ∨
      (handleInputFrame k).moveX = 1) ∧
    ((handleInputFrame k).moveY = -1 ∨ (handleInputFrame k).moveY = 0 ∨
      (handleInputFrame k).moveY = 1) ∧
    ((handleInputFrame k).attackX = -1 ∨ (handleInputFrame k).attackX = 0 ∨
      (handleInputFrame k).attackX = 1) ∧
    ((handleInputFrame k).attackY = -1 ∨ (handleInputFrame k).attackY = 0 ∨
      (handleInputFrame k).attackY = 1) :=
  ⟨parse_frameToJson (handleInputFrame k),
    axis_mem k.a k.d, axis_mem k.w k.s, axis_mem k.left k.right,
    axis_mem k.up k.down⟩

/-- Every terminating run of the main loop writes the per-tick frames of
the ticks executed (the last of which is the tick where `ShouldClose`
observed the close signal) followed by exactly one final `quitPayload`, and
nothing after it. -/
theorem mainWrites_structure :
    ∀ (ts : List TickInput) (qr : Bool) (ws : List JVal),
      mainWrites qr ts = some ws →
      ∃ n : ℕ, n < ts.length ∧
        ws = ((ts.take (n + 1)).map fun t =>
          frameToJson (handleInputFrame t.keys)) ++ [quitPayload] := by
  intro ts
  induction ts with
  | nil => intro qr ws h; simp [mainWrites] at h
  | cons t rest ih =>
    intro qr ws h
    unfold mainWrites at h
    by_cases hc : (t.windowShouldClose || (qr || t.keys.escape)) = true
    · rw [if_pos hc] at h
      refine ⟨0, by simp, ?_⟩
      simp only [Option.some.injEq] at h
      simp [← h]
    · rw [if_neg hc] at h
      cases hrest : mainWrites (qr || t.keys.escape) rest with
      | none => rw [hrest] at h; simp at h
      | some ws' =>
        rw [hrest] at h
        have h2 : frameToJson (handleInputFrame t.keys) :: ws' = ws := by
          injection h
        obtain ⟨n, hn, hws⟩ := ih (qr || t.keys.escape) ws' hrest
        refine ⟨n + 1, by simpa using Nat.succ_lt_succ hn, ?_⟩
        rw [← h2, hws]
        simp

/-- Claim C2 — confirmed.  In any terminating run, the write trace is the
per-tick frames up to and including the tick where the close signal was
observed, followed by exactly one further write: the `SignalQuit` payload,
which parses to the frame with all movement and attack components zero,
all booleans false, and `quit = true`; no write follows it. -/
theorem quit_frame_is_last (ts : List TickInput) (ws : List JVal)
    (h : mainWrites false ts = some ws) :
    (∃ n : ℕ, n < ts.length ∧
      ws = ((ts.take (n + 1)).map fun t =>
        frameToJson (handleInputFrame t.keys)) ++ [quitPayload]) ∧
    parseInputFrame quitPayload = .ok ⟨0, 0, 0, 0, false, false, false, true⟩ :=
  ⟨mainWrites_structure ts false ws h, rfl⟩

/-- Claim C2 — witness: a single tick whose platform close flag is set
writes that tick's frame and then the quit payload, and nothing else. -/
theorem quit_frame_is_last_witness :
    (∃ n : ℕ, n < ([⟨allKeysUp, true⟩] : List TickInput).length ∧
      [frameToJson (handleInputFrame allKeysUp), quitPayload] =
        ((([⟨allKeysUp, true⟩] : List TickInput).take (n + 1)).map fun t =>
          frameToJson (handleInputFrame t.keys)) ++ [quitPayload]) ∧
    parseInputFrame quitPayload = .ok ⟨0, 0, 0, 0, false, false, false, true⟩ :=
  quit_frame_is_last [⟨allKeysUp, true⟩]
    [frameToJson (handleInputFrame allKeysUp), quitPayload] rfl

/-- Claim C10 — confirmed.  An entirely empty entity record is composed
with concrete named defaults: a pickup without `kind` is drawn with the
`"coin"` style, an actor without `type` takes the non-player `"enemy"`
branch with the non-`"spitter"` default-variant fill (including the health
bar), a projectile without `owner` gets the `"player"` color
`{150,220,255,255}`, an effect without `kind` gets the `"impact"` (non
blood-splatter) color `{220,220,255,180}`, and missing coordinates default
to `(0, 0)`. -/
theorem missing_field_defaults (ts : ℚ) (rw rh sw sh : ℤ) :
    DrawPickups (some (JVal.arr [JVal.obj []])) ts rw rh sw sh =
      .ok [DrawCmd.circle (WorldToScreen ts rw rh sw sh 0 0).1
        (WorldToScreen ts rw rh sw sh 0 0).2 (ts * (22 / 100))
        (PickupColor "coin")] ∧
    PickupColor "coin" = ⟨230, 200, 80, 255⟩ ∧
    DrawActors (some (JVal.arr [JVal.obj []])) ts rw rh sw sh =
      .ok [DrawCmd.circle (WorldToScreen ts rw rh sw sh 0 0).1
          (WorldToScreen ts rw rh sw sh 0 0).2 (ts * (32 / 100)) ⟨200, 120, 120, 255⟩,
        DrawCmd.circleLines (WorldToScreen ts rw rh sw sh 0 0).1
          (WorldToScreen ts rw rh sw sh 0 0).2 (ts * (32 / 100)) ⟨60, 20, 20, 255⟩,
        DrawCmd.rect ⟨(WorldToScreen ts rw rh sw sh 0 0).1 - ts * (3 / 5) / 2,
          (WorldToScreen ts rw rh sw sh 0 0).2 - ts * (1 / 2), ts * (3 / 5), 4⟩
          ⟨30, 10, 10, 180⟩,
        DrawCmd.rect ⟨(WorldToScreen ts rw rh sw sh 0 0).1 - ts * (3 / 5) / 2,
          (WorldToScreen ts rw rh sw sh 0 0).2 - ts * (1 / 2),
          healthBarFgWidth ts 0 1, 4⟩ ⟨220, 40, 40, 200⟩] ∧
    DrawProjectiles (some (JVal.arr [JVal.obj []])) ts rw rh sw sh =
      .ok [DrawCmd.circle (WorldToScreen ts rw rh sw sh 0 0).1
        (WorldToScreen ts rw rh sw sh 0 0).2 (ts * (18 / 100)) ⟨150, 220, 255, 255⟩] ∧
    DrawEffects (some (JVal.arr [JVal.obj []])) ts rw rh sw sh =
      .ok [DrawCmd.circleLines (WorldToScreen ts rw rh sw sh 0 0).1
        (WorldToScreen ts rw rh sw sh 0 0).2 (ts * (28 / 100)) ⟨220, 220, 255, 180⟩] :=
  ⟨rfl, rfl, rfl, rfl, rfl⟩
